import Mathlib

/-!
Verification of the bounded, unit-aware weather history store in
src/openweather/app.py.

Embedding choices:
* Python floats are modelled as rationals; every numeric literal of the
  source (9/5, 32, 2.237, 0.02953) is exact in the rationals, so the
  conversion formulas are represented exactly.
* A Python dict holding a weather record is modelled as a structure whose
  fields are Options: a missing key is none, and a dict access that would
  raise KeyError corresponds to reading a none field.
* collections.deque with maxlen is modelled as a list that keeps the last
  cap elements.
* The reactive wiring is inlined: update_weather is a pure state
  transformer over the pair (in-memory history, persisted file), with the
  outcome of the HTTP fetch and of the file write passed in as data.
-/

/-- MAX_HISTORY from src/openweather/app.py line 16. -/
def MAX_HISTORY : Nat := 168

/-- A weather record as stored in the history (a Python dict in the
source); every field is an Option because a dict may lack keys. -/
structure Entry where
  city : Option String
  temperature : Option ℚ
  humidity : Option ℚ
  pressure : Option ℚ
  wind_speed : Option ℚ
  weather_condition : Option String
  unit_system : Option String
  timestamp : Option String
  deriving DecidableEq

/-- A fully-populated Sample as in the spec data model: every field
present, unit_system a plain tag. -/
structure Sample where
  city : String
  temperature : ℚ
  humidity : ℚ
  pressure : ℚ
  wind_speed : ℚ
  weather_condition : String
  unit_system : String
  timestamp : String
  deriving DecidableEq

/-- A complete Sample viewed as a dict with all keys present. -/
def toEntry (s : Sample) : Entry :=
  { city := some s.city
  , temperature := some s.temperature
  , humidity := some s.humidity
  , pressure := some s.pressure
  , wind_speed := some s.wind_speed
  , weather_condition := some s.weather_condition
  , unit_system := some s.unit_system
  , timestamp := some s.timestamp }

/-- convert_temperature from app.py lines 57-63. -/
def convert_temperature (temp : ℚ) (from_unit to_unit : String) : ℚ :=
  if from_unit = to_unit then temp
  else if from_unit = "metric" ∧ to_unit = "imperial" then temp * (9/5) + 32
  else (temp - 32) * 5/9

/-- convert_speed from app.py lines 65-71. -/
def convert_speed (speed : ℚ) (from_unit to_unit : String) : ℚ :=
  if from_unit = to_unit then speed
  else if from_unit = "metric" ∧ to_unit = "imperial" then speed * 2.237
  else speed / 2.237

/-- convert_pressure from app.py lines 73-79. -/
def convert_pressure (pressure : ℚ) (from_unit to_unit : String) : ℚ :=
  if from_unit = to_unit then pressure
  else if from_unit = "metric" ∧ to_unit = "imperial" then pressure * 0.02953
  else pressure / 0.02953

/-- The body of the per-entry loop of converted_history (app.py lines
132-164): an entry whose (defaulted) unit tag matches the target is passed
through; otherwise a converted dict is built, and a missing key raises
KeyError, caught to skip the entry (result none). -/
def convertEntry (current_units : String) (entry : Entry) : Option Entry :=
  let entry_units := entry.unit_system.getD "metric"
  if entry_units = current_units then some entry
  else
    match entry.city, entry.temperature, entry.humidity, entry.pressure,
          entry.wind_speed, entry.weather_condition, entry.timestamp with
    | some c, some t, some h, some p, some w, some wc, some ts =>
        some { city := some c
             , temperature := some (convert_temperature t entry_units current_units)
             , humidity := some h
             , pressure := some (convert_pressure p entry_units current_units)
             , wind_speed := some (convert_speed w entry_units current_units)
             , weather_condition := some wc
             , unit_system := some current_units
             , timestamp := some ts }
    | _, _, _, _, _, _, _ => none

/-- converted_history (app.py lines 126-166) as a function of the target
unit system and the buffer contents. -/
def convertHistory (current_units : String) (history : List Entry) : List Entry :=
  history.filterMap (convertEntry current_units)

/-- Append on a deque with maxlen = cap (app.py line 103 uses
deque(maxlen=MAX_HISTORY); line 201 appends): the result keeps the last
cap elements of the extended sequence. -/
def dequeAppend {α : Type} (cap : Nat) (buf : List α) (x : α) : List α :=
  (buf ++ [x]).drop (buf.length + 1 - cap)

/-- deque(iterable, maxlen=cap) (app.py line 121): keeps the last cap
elements of the iterable. -/
def dequeOf {α : Type} (cap : Nat) (l : List α) : List α :=
  l.drop (l.length - cap)

/-- The per-entry default fill of load_initial_history (app.py lines
118-120): an entry lacking unit_system gets "metric". -/
def ensureUnitSystem (e : Entry) : Entry :=
  match e.unit_system with
  | none => { e with unit_system := some "metric" }
  | some _ => e

/-- load_initial_history (app.py lines 111-123) as a function of the
persisted file content (none = file absent). The buffer starts empty
(line 103) and is only replaced when the file exists. -/
def loadInitialHistory (file : Option (List Entry)) : List Entry :=
  match file with
  | none => []
  | some history => dequeOf MAX_HISTORY (history.map ensureUnitSystem)

/-- The raw provider response body fields read by fetch_weather (app.py
lines 42-51); a missing key raises KeyError. -/
structure ProviderData where
  temp : Option ℚ
  humidity : Option ℚ
  pressure : Option ℚ
  wind_speed : Option ℚ
  weather_main : Option String
  deriving DecidableEq

/-- fetch_weather (app.py lines 36-54): none models a network error (the
request raised) and a some response with a missing field raises KeyError;
both are caught and turned into None. -/
def fetchWeather (city unit_system timestamp : String)
    (response : Option ProviderData) : Option Entry :=
  match response with
  | none => none
  | some d =>
    match d.temp, d.humidity, d.pressure, d.wind_speed, d.weather_main with
    | some t, some h, some p, some w, some wc =>
        some { city := some city
             , temperature := some t
             , humidity := some h
             , pressure := some p
             , wind_speed := some w
             , weather_condition := some wc
             , unit_system := some unit_system
             , timestamp := some timestamp }
    | _, _, _, _, _ => none

/-- The state touched by update_weather: the in-memory history deque and
the persisted file content (none = no file). -/
structure AppState where
  history : List Entry
  file : Option (List Entry)
  deriving DecidableEq

/-- update_weather (app.py lines 194-209): skip when the city is empty or
the fetch returned None; otherwise append to the deque, attempt the save
(saveOk models whether the file write succeeds; a failure is caught and
logged), and keep the appended history in memory either way. -/
def updateWeather (city unit_system timestamp : String)
    (response : Option ProviderData) (saveOk : Bool) (st : AppState) : AppState :=
  if city = "" then st
  else
    match fetchWeather city unit_system timestamp response with
    | none => st
    | some d =>
      let newHist := dequeAppend MAX_HISTORY st.history d
      { history := newHist
      , file := if saveOk then some newHist else st.file }

/-- The appended element survives the deque truncation whenever the
capacity is positive. -/
lemma mem_dequeAppend_self {α : Type} (cap : Nat) (hcap : 0 < cap)
    (buf : List α) (x : α) : x ∈ dequeAppend cap buf x := by
  unfold dequeAppend
  rw [List.drop_append_eq_append_drop]
  have h0 : buf.length + 1 - cap - buf.length = 0 := by omega
  rw [h0]
  simp

/-- Claim C2: the history buffer never holds more than the configured
capacity; when an append happens at capacity the oldest entry is evicted
first (FIFO); in particular a capacity-3 buffer [A, B, C] appended with D
becomes [B, C, D]. -/
theorem history_capacity_fifo :
    (∀ (α : Type) (cap : Nat) (buf : List α) (x : α),
        (dequeAppend cap buf x).length ≤ cap)
    ∧ (∀ (α : Type) (cap : Nat) (buf : List α) (x : α),
        buf.length = cap → 0 < cap → dequeAppend cap buf x = buf.tail ++ [x])
    ∧ (∀ A B C D : Entry, dequeAppend 3 [A, B, C] D = [B, C, D]) := by
  refine ⟨?_, ?_, ?_⟩
  · intro α cap buf x
    simp only [dequeAppend, List.length_drop, List.length_append,
      List.length_cons, List.length_nil]
    omega
  · intro α cap buf x hlen hcap
    cases buf with
    | nil =>
      subst hlen
      simp at hcap
    | cons a l =>
      have h1 : l.length + 1 + 1 - cap = 1 := by
        simp only [List.length_cons] at hlen
        omega
      simp [dequeAppend, h1]
  · intro A B C D
    rfl

/-- Witness for C2 at a concrete capacity-2 buffer. -/
theorem history_capacity_fifo_witness :
    dequeAppend 2 [(1 : Nat), 2] 5 = [2, 5] := by
  have h := history_capacity_fifo.2.1 Nat 2 [1, 2] 5 rfl (by decide)
  simpa using h

/-- Claim C3: when the unit systems differ, conversion applies exactly the
stated formulas (metric to imperial: t*9/5+32, s*2.237, p*0.02953;
imperial to metric: the inverses), copies humidity and weather_condition
unchanged, and converting temperature 20 from metric to imperial gives
exactly 68. -/
theorem convert_formulas (s : Sample) :
    convertEntry "imperial" (toEntry { s with unit_system := "metric" })
      = some { city := some s.city
             , temperature := some (s.temperature * (9/5) + 32)
             , humidity := some s.humidity
             , pressure := some (s.pressure * 0.02953)
             , wind_speed := some (s.wind_speed * 2.237)
             , weather_condition := some s.weather_condition
             , unit_system := some "imperial"
             , timestamp := some s.timestamp }
    ∧ convertEntry "metric" (toEntry { s with unit_system := "imperial" })
      = some { city := some s.city
             , temperature := some ((s.temperature - 32) * 5/9)
             , humidity := some s.humidity
             , pressure := some (s.pressure / 0.02953)
             , wind_speed := some (s.wind_speed / 2.237)
             , weather_condition := some s.weather_condition
             , unit_system := some "metric"
             , timestamp := some s.timestamp }
    ∧ convert_temperature 20 "metric" "imperial" = 68 := by
  refine ⟨?_, ?_, ?_⟩
  · simp [convertEntry, toEntry, convert_temperature, convert_speed,
      convert_pressure]
  · simp [convertEntry, toEntry, convert_temperature, convert_speed,
      convert_pressure]
  · norm_num [convert_temperature]
    decide

/-- Claim C6: converting an entry to the unit system it is already tagged
with is the identity: the entry is passed through with every field
unchanged. -/
theorem convert_identity (e : Entry) (U : String)
    (h : e.unit_system = some U) : convertEntry U e = some e := by
  simp [convertEntry, h]

/-- Witness for C6 at a concrete metric entry. -/
theorem convert_identity_witness :
    convertEntry "metric"
      { city := some "Dallas", temperature := some 20, humidity := some 50
      , pressure := some 1013, wind_speed := some 5
      , weather_condition := some "Clear", unit_system := some "metric"
      , timestamp := some "2026-01-01 00:00:00" }
    = some
      { city := some "Dallas", temperature := some 20, humidity := some 50
      , pressure := some 1013, wind_speed := some 5
      , weather_condition := some "Clear", unit_system := some "metric"
      , timestamp := some "2026-01-01 00:00:00" } :=
  convert_identity _ "metric" rfl

/-- Claim C8: when the persisted history file is absent at startup, the
load leaves the buffer equal to the empty sequence and is not an error. -/
theorem load_missing_file : loadInitialHistory none = [] := rfl

/-- Claim C10: any from/to pair with differing units other than
(metric, imperial) — including unrecognized tags — falls through to the
imperial-to-metric formula in all three converters; no unit tag is
rejected. -/
theorem convert_fallthrough (f t : String) (x : ℚ) (hne : f ≠ t)
    (hmi : ¬(f = "metric" ∧ t = "imperial")) :
    convert_temperature x f t = (x - 32) * 5/9
    ∧ convert_speed x f t = x / 2.237
    ∧ convert_pressure x f t = x / 0.02953 := by
  simp [convert_temperature, convert_speed, convert_pressure, hne, hmi]

/-- Witness for C10 at the unrecognized tag "kelvin". -/
theorem convert_fallthrough_witness :
    convert_temperature 41 "kelvin" "metric" = 5
    ∧ convert_speed 2.237 "kelvin" "metric" = 1
    ∧ convert_pressure 0.02953 "kelvin" "metric" = 1 := by
  have h := convert_fallthrough "kelvin" "metric" 41 (by decide) (by decide)
  have h2 := convert_fallthrough "kelvin" "metric" 2.237 (by decide) (by decide)
  have h3 := convert_fallthrough "kelvin" "metric" 0.02953 (by decide) (by decide)
  refine ⟨?_, ?_, ?_⟩
  · rw [h.1]; norm_num
  · rw [h2.2.1]; norm_num
  · rw [h3.2.2]; norm_num

/-- Claim C1: converting a complete Sample tagged with unit system U to
any unit system V and then back to U returns the original sample exactly
(the rational model makes the floating-point tolerance exact). -/
theorem convert_roundtrip (s : Sample) (V : String)
    (hU : s.unit_system = "metric" ∨ s.unit_system = "imperial")
    (hV : V = "metric" ∨ V = "imperial") :
    (convertEntry V (toEntry s)).bind (convertEntry s.unit_system)
      = some (toEntry s) := by
  rcases hU with hU | hU <;> rcases hV with hV | hV <;> rw [hU, hV] <;>
    simp [convertEntry, toEntry, hU, convert_temperature, convert_speed,
      convert_pressure] <;>
    ring_nf <;> simp

/-- Witness for C1: a concrete metric sample converted to imperial and
back. -/
theorem convert_roundtrip_witness :
    (convertEntry "imperial"
        (toEntry { city := "Dallas", temperature := 20, humidity := 50
                 , pressure := 1013, wind_speed := 5
                 , weather_condition := "Clear", unit_system := "metric"
                 , timestamp := "2026-01-01 00:00:00" })).bind
      (convertEntry "metric")
    = some (toEntry { city := "Dallas", temperature := 20, humidity := 50
                    , pressure := 1013, wind_speed := 5
                    , weather_condition := "Clear", unit_system := "metric"
                    , timestamp := "2026-01-01 00:00:00" }) :=
  convert_roundtrip
    { city := "Dallas", temperature := 20, humidity := 50
    , pressure := 1013, wind_speed := 5
    , weather_condition := "Clear", unit_system := "metric"
    , timestamp := "2026-01-01 00:00:00" }
    "imperial" (Or.inl rfl) (Or.inr rfl)

/-- Claim C4: a persisted record lacking unit_system is loaded with
unit_system set to "metric" and every other field untouched; the load maps
this default fill over the whole file content. -/
theorem load_default_unit (e : Entry) (history : List Entry)
    (h : e.unit_system = none) :
    ensureUnitSystem e = { e with unit_system := some "metric" }
    ∧ loadInitialHistory (some history)
        = dequeOf MAX_HISTORY (history.map ensureUnitSystem) := by
  constructor
  · simp [ensureUnitSystem, h]
  · rfl

/-- Witness for C4 at a concrete record lacking unit_system. -/
theorem load_default_unit_witness :
    ensureUnitSystem
      { city := some "Dallas", temperature := some 20, humidity := some 50
      , pressure := some 1013, wind_speed := some 5
      , weather_condition := some "Clear", unit_system := none
      , timestamp := some "t" }
    = { city := some "Dallas", temperature := some 20, humidity := some 50
      , pressure := some 1013, wind_speed := some 5
      , weather_condition := some "Clear", unit_system := some "metric"
      , timestamp := some "t" } :=
  (load_default_unit _ [] rfl).1

/-- Claim C5: a failed fetch (network error, i.e. no response, or a
response missing a required field) is dropped: update_weather leaves the
in-memory history and the persisted file exactly as they were, and the
model is total, so no error reaches the caller. -/
theorem fetch_failure_skipped (city unit_system timestamp : String)
    (response : Option ProviderData) (saveOk : Bool) (st : AppState)
    (h : fetchWeather city unit_system timestamp response = none) :
    updateWeather city unit_system timestamp response saveOk st = st
    ∧ fetchWeather city unit_system timestamp none = none
    ∧ (∀ d : ProviderData, d.temp = none →
        fetchWeather city unit_system timestamp (some d) = none) := by
  refine ⟨?_, rfl, ?_⟩
  · by_cases hc : city = "" <;> simp [updateWeather, h, hc]
  · intro d hd
    simp [fetchWeather, hd]

/-- Witness for C5: a concrete absent response leaves a concrete state
unchanged. -/
theorem fetch_failure_skipped_witness :
    updateWeather "Dallas" "metric" "t" none true { history := [], file := none }
      = { history := [], file := none } :=
  (fetch_failure_skipped "Dallas" "metric" "t" none true
    { history := [], file := none } rfl).1

/-- Claim C9: a successful fetch appends to the deque and is immediately
followed by a whole-buffer write-through; when the save fails the
exception is swallowed and the in-memory buffer still holds the appended
sample. -/
theorem append_write_through (city unit_system timestamp : String)
    (response : Option ProviderData) (saveOk : Bool) (st : AppState)
    (d : Entry) (hc : city ≠ "")
    (hf : fetchWeather city unit_system timestamp response = some d) :
    (updateWeather city unit_system timestamp response saveOk st).history
        = dequeAppend MAX_HISTORY st.history d
    ∧ d ∈ (updateWeather city unit_system timestamp response saveOk st).history
    ∧ (saveOk = true →
        (updateWeather city unit_system timestamp response saveOk st).file
          = some (updateWeather city unit_system timestamp
              response saveOk st).history)
    ∧ (saveOk = false →
        (updateWeather city unit_system timestamp response saveOk st).file
          = st.file) := by
  have hu : updateWeather city unit_system timestamp response saveOk st
      = { history := dequeAppend MAX_HISTORY st.history d
        , file := if saveOk then some (dequeAppend MAX_HISTORY st.history d)
                  else st.file } := by
    simp [updateWeather, hc, hf]
  refine ⟨by rw [hu], ?_, ?_, ?_⟩
  · simp only [hu]
    exact mem_dequeAppend_self MAX_HISTORY (by norm_num [MAX_HISTORY]) st.history d
  · intro hs
    rw [hu]
    simp [hs]
  · intro hs
    rw [hu]
    simp [hs]

/-- Witness for C9 at a concrete successful fetch with a failing save. -/
theorem append_write_through_witness :
    (updateWeather "Dallas" "metric" "t"
        (some { temp := some 20, humidity := some 50, pressure := some 1013
              , wind_speed := some 5, weather_main := some "Clear" })
        false { history := [], file := some [] }).history
      = dequeAppend MAX_HISTORY []
          { city := some "Dallas", temperature := some 20
          , humidity := some 50, pressure := some 1013
          , wind_speed := some 5, weather_condition := some "Clear"
          , unit_system := some "metric", timestamp := some "t" } :=
  (append_write_through "Dallas" "metric" "t"
    (some { temp := some 20, humidity := some 50, pressure := some 1013
          , wind_speed := some 5, weather_main := some "Clear" })
    false { history := [], file := some [] } _ (by decide) rfl).1

/-- A dict tagged metric but lacking every other key, for exercising the
skip path of converted_history. -/
def eBad : Entry :=
  { city := none, temperature := none, humidity := none, pressure := none
  , wind_speed := none, weather_condition := none
  , unit_system := some "metric", timestamp := none }

/-- Claim C7 counterexample: converted_history does not skip every entry
missing a required field — an entry whose unit tag already matches the
target is passed through unchanged even though it lacks the temperature
(and every other) field. -/
theorem convert_skip_cex :
    convertHistory "metric" [eBad] = [eBad] ∧ eBad.temperature = none := by
  constructor <;> rfl

/-- Claim C7 amended: convert never raises, and an entry missing a
required field is skipped exactly when it needs conversion (its unit tag
differs from the target); entries whose tag matches the target are passed
through unchanged regardless of missing fields, and the output preserves
the input order (conversion distributes over concatenation). -/
theorem convert_skip_amended (target : String) :
    (∀ e : Entry, e.unit_system.getD "metric" ≠ target →
        (e.city = none ∨ e.temperature = none ∨ e.humidity = none ∨
         e.pressure = none ∨ e.wind_speed = none ∨
         e.weather_condition = none ∨ e.timestamp = none) →
        convertEntry target e = none)
    ∧ (∀ e : Entry, e.unit_system.getD "metric" = target →
        convertEntry target e = some e)
    ∧ (∀ h1 h2 : List Entry,
        convertHistory target (h1 ++ h2)
          = convertHistory target h1 ++ convertHistory target h2) := by
  refine ⟨?_, ?_, ?_⟩
  · rintro ⟨c, t, h, p, w, wc, u, ts⟩ hne hmiss
    cases c <;> cases t <;> cases h <;> cases p <;> cases w <;> cases wc <;>
      cases ts <;> simp_all [convertEntry]
  · intro e h
    simp [convertEntry, h]
  · intro h1 h2
    simp [convertHistory]

/-- Witness for C7 amended: the all-missing metric dict is skipped when
imperial is requested, passed through when metric is requested, and
conversion distributes over a concrete concatenation. -/
theorem convert_skip_amended_witness :
    convertEntry "imperial" eBad = none
    ∧ convertEntry "metric" eBad = some eBad
    ∧ convertHistory "imperial" ([eBad] ++ [eBad])
        = convertHistory "imperial" [eBad] ++ convertHistory "imperial" [eBad] :=
  ⟨(convert_skip_amended "imperial").1 eBad (by decide) (Or.inl rfl),
   (convert_skip_amended "metric").2.1 eBad (by decide),
   (convert_skip_amended "imperial").2.2 [eBad] [eBad]⟩
